import Mathlib

/-!
Verification of the losoto h5parm core against its source.

Shallow embedding of the two source files:

* `src/bin/H5parm_collector.py` — the per-soltab merge loop (lines 86-121):
  sorted duplicate-free union of the per-axis coordinate values, NaN/zero
  allocation, `searchsorted` + `np.ix_` scatter, weight post-processing.
* `src/h5parm.py` — table construction and naming, the selection machinery of
  `solHandler`, the materialization methods of `solFetcher`, and the history
  attributes.

Conventions: Python floats are modelled as `ℚ`, with `Option ℚ` for cell
values so that `none` stands for the missing marker NaN; dense arrays are
functions from a multi-index (`List Nat`, one entry per axis); Python strings
are Lean `String`s but all operations on them are carried out structurally on
`String.data` so that every definition evaluates inside the kernel.
-/

deriving instance DecidableEq for Except

/-- Python exceptions that the embedded code can raise. -/
inductive PyErr where
  | nameError (name : String)
  | recursionError
  | assertionError
  | valueError
  deriving DecidableEq

/-! ## Merge engine: src/bin/H5parm_collector.py, lines 86-121 -/

/-- One input solution table as the collector reads it: the per-axis coordinate
arrays (all inputs are assumed to share axis set and order, as the spec
states), the dense value array and the dense weight array, both addressed by a
local multi-index with one entry per axis. A cell value of `none` models the
floating-point missing marker NaN. -/
structure Soltab where
  axesVals : List (List ℚ)
  val : List Nat → Option ℚ
  weight : List Nat → ℚ

/-- `np.searchsorted(a, v)` (side `left`) on a sorted array `a`: the number of
entries strictly below `v`, which is the leftmost insertion position of `v`.
The merge only applies it to the sorted union arrays. -/
def searchsorted (a : List ℚ) (v : ℚ) : Nat :=
  a.countP (fun x => decide (x < v))

/-- Line 97, `np.array(sorted(list(set(chain(*allAxesVals[axis])))))`: the
duplicate-free union of the per-table coordinate lists of one axis, in
increasing order (remove duplicates, then sort; the result is the unique
sorted duplicate-free enumeration Python's `sorted(set(...))` produces). -/
def sortedUnion (ls : List (List ℚ)) : List ℚ :=
  List.insertionSort (· ≤ ·) ls.flatten.dedup

/-- Lines 88-99: the merged axes, one `sortedUnion` per axis, the axis order
being that of the first input table (the source looks coordinates up by axis
name; with the shared axis-order assumption that is a positional lookup). -/
def mergedAxes (tabs : List Soltab) : List (List ℚ) :=
  match tabs with
  | [] => []
  | t0 :: _ =>
      (List.range t0.axesVals.length).map
        (fun d => sortedUnion (tabs.map (fun t => t.axesVals.getD d [])))

/-- The shape of one input table: the per-axis coordinate counts. -/
def tabShape (t : Soltab) : List Nat :=
  t.axesVals.map List.length

/-- All local multi-indices of a dense array of the given shape, in C order
(first axis slowest) — the order in which numpy fancy assignment visits the
cells of the right-hand side. -/
def indexProduct : List Nat → List (List Nat)
  | [] => [[]]
  | n :: ns => (List.range n).flatMap (fun i => (indexProduct ns).map (fun is => i :: is))

/-- Lines 111-113: the merged-grid position of the local multi-index `i` of
table `t` — one `searchsorted` lookup into the merged axis per dimension. -/
def mappedIdx (mAxes : List (List ℚ)) (t : Soltab) (i : List Nat) : List Nat :=
  List.zipWith
    (fun d id => searchsorted (mAxes.getD d []) ((t.axesVals.getD d []).getD id 0))
    (List.range mAxes.length) i

/-- A single cell write into a dense array modelled as a function. -/
def writeCell {α : Type} (arr : List Nat → α) (j : List Nat) (v : α) : List Nat → α :=
  fun k => if k = j then v else arr k

/-- Lines 114-115, `allVals[np.ix_(*coords)] = soltab.obj.val` (and the same
statement for the weights): every cell of the input array is written to its
mapped merged position, in C order, so at a repeated target the last local
cell wins — exactly the observable numpy behaviour. -/
def scatterTab {α : Type} (mAxes : List (List ℚ)) (t : Soltab)
    (cell : List Nat → α) (arr : List Nat → α) : List Nat → α :=
  (indexProduct (tabShape t)).foldl
    (fun a i => writeCell a (mappedIdx mAxes t i) (cell i)) arr

/-- Lines 110-115: the scatter loop over the input tables; later tables
overwrite earlier ones at overlapping coordinates. -/
def scatterAll {α : Type} (mAxes : List (List ℚ)) (tabs : List Soltab)
    (cellOf : Soltab → List Nat → α) (init : List Nat → α) : List Nat → α :=
  tabs.foldl (fun a t => scatterTab mAxes t (cellOf t) a) init

/-- Lines 104-105 and 110-115: the merged value array, allocated all NaN
(`allVals[:] = np.nan`) and then filled by the scatter loop. -/
def allVals (tabs : List Soltab) : List Nat → Option ℚ :=
  scatterAll (mergedAxes tabs) tabs (fun t => t.val) (fun _ => none)

/-- Lines 106 and 110-115: the merged weight array before post-processing,
allocated all zero (`np.zeros`) and then filled by the scatter loop. -/
def allWeightsRaw (tabs : List Soltab) : List Nat → ℚ :=
  scatterAll (mergedAxes tabs) tabs (fun t => t.weight) (fun _ => 0)

/-- Lines 118 and 121, per cell: first `allWeights[allWeights != 0] = 1.`
turns every nonzero weight into 1, then `allWeights[np.isnan(allVals)] = 0.`
zeroes the weight of every cell whose merged value is NaN. -/
def postWeight (v : Option ℚ) (w : ℚ) : ℚ :=
  let w1 := if w ≠ 0 then 1 else w
  if v = none then 0 else w1

/-- The merged weight array after the two post-processing passes. -/
def allWeights (tabs : List Soltab) : List Nat → ℚ :=
  fun j => postWeight (allVals tabs j) (allWeightsRaw tabs j)

/-- Table `t` populates merged cell `j` exactly when some local multi-index of
`t` is mapped onto `j`, i.e. when `j` lies in the Cartesian product of the
merged positions of the per-axis coordinates of `t`. -/
def coversb (mAxes : List (List ℚ)) (t : Soltab) (j : List Nat) : Bool :=
  (indexProduct (tabShape t)).any (fun i => decide (mappedIdx mAxes t i = j))

/-- First input table of the concrete merge scenario: a single axis
`time = [1,2,3]`, constant value 10, weight 1 everywhere. -/
def tabTime123 : Soltab :=
  { axesVals := [[1, 2, 3]], val := fun _ => some 10, weight := fun _ => 1 }

/-- Second input table of the concrete merge scenario: a single axis
`time = [2,3,4]`, constant value 20, weight 1 everywhere. -/
def tabTime234 : Soltab :=
  { axesVals := [[2, 3, 4]], val := fun _ => some 20, weight := fun _ => 1 }

/-- C1: merging the two concrete tables gives the sorted duplicate-free union
`[1,2,3,4]` as the time axis; the value at time 1 is table 1's constant, the
values at the times 2, 3, 4 covered by the second table are table 2's constant
(last input wins at the overlaps), and the post-processed weight is 1 at every
merged coordinate. -/
theorem collector_merge_scenario :
    mergedAxes [tabTime123, tabTime234] = [[1, 2, 3, 4]] ∧
    allVals [tabTime123, tabTime234] [0] = some 10 ∧
    allVals [tabTime123, tabTime234] [1] = some 20 ∧
    allVals [tabTime123, tabTime234] [2] = some 20 ∧
    allVals [tabTime123, tabTime234] [3] = some 20 ∧
    allWeights [tabTime123, tabTime234] [0] = 1 ∧
    allWeights [tabTime123, tabTime234] [1] = 1 ∧
    allWeights [tabTime123, tabTime234] [2] = 1 ∧
    allWeights [tabTime123, tabTime234] [3] = 1 := by
  decide

/-- A fold of single-cell writes leaves every cell it never targets unchanged. -/
theorem foldl_writeCell_of_ne {α : Type} (g : List Nat → List Nat) (f : List Nat → α)
    (j : List Nat) : ∀ (l : List (List Nat)) (a : List Nat → α),
    (∀ i ∈ l, g i ≠ j) →
    (l.foldl (fun a i => writeCell a (g i) (f i)) a) j = a j := by
  intro l
  induction l with
  | nil => intro a _; rfl
  | cons i is ih =>
      intro a h
      have hne : g i ≠ j := h i (List.mem_cons_self i is)
      have hrest := ih (writeCell a (g i) (f i)) (fun x hx => h x (List.mem_cons_of_mem i hx))
      rw [List.foldl_cons, hrest, writeCell, if_neg (fun hc => hne hc.symm)]

/-- The scatter of one table leaves every merged cell it does not cover
unchanged. -/
theorem scatterTab_apply_of_not_covers {α : Type} (mAxes : List (List ℚ)) (t : Soltab)
    (cell : List Nat → α) (arr : List Nat → α) (j : List Nat)
    (h : coversb mAxes t j = false) : scatterTab mAxes t cell arr j = arr j := by
  apply foldl_writeCell_of_ne
  intro i hi
  have := List.any_eq_false.mp h i hi
  simpa using this

/-- The full scatter loop leaves every merged cell covered by no input table
unchanged. -/
theorem scatterAll_apply_of_not_covers {α : Type} (mAxes : List (List ℚ))
    (cellOf : Soltab → List Nat → α) :
    ∀ (tabs : List Soltab) (init : List Nat → α) (j : List Nat),
    (∀ t ∈ tabs, coversb mAxes t j = false) →
    scatterAll mAxes tabs cellOf init j = init j := by
  intro tabs
  induction tabs with
  | nil => intro init j _; rfl
  | cons t ts ih =>
      intro init j h
      have h1 : coversb mAxes t j = false := h t (List.mem_cons_self t ts)
      have h2 := ih (scatterTab mAxes t (cellOf t) init) j
        (fun x hx => h x (List.mem_cons_of_mem t hx))
      simp only [scatterAll, List.foldl_cons] at h2 ⊢
      rw [h2, scatterTab_apply_of_not_covers mAxes t (cellOf t) init j h1]

/-- C3: a merged cell whose coordinate combination is covered by the Cartesian
product of no input table's per-axis coordinates keeps the missing marker NaN
in the merged value array and weight exactly 0, both before and after the
weight post-processing. -/
theorem merge_uncovered_cell_nan_zero (tabs : List Soltab) (j : List Nat)
    (h : ∀ t ∈ tabs, coversb (mergedAxes tabs) t j = false) :
    allVals tabs j = none ∧ allWeightsRaw tabs j = 0 ∧ allWeights tabs j = 0 := by
  have hv : allVals tabs j = none :=
    scatterAll_apply_of_not_covers (mergedAxes tabs) (fun t => t.val) tabs
      (fun _ => none) j h
  have hw : allWeightsRaw tabs j = 0 :=
    scatterAll_apply_of_not_covers (mergedAxes tabs) (fun t => t.weight) tabs
      (fun _ => 0) j h
  refine ⟨hv, hw, ?_⟩
  simp [allWeights, hv, postWeight]

/-- Witness for C3 at a concrete input: merged index 7 lies outside the single
input table of shape 3, so its value is NaN and its weight 0. -/
theorem merge_uncovered_cell_nan_zero_witness :
    (∀ t ∈ [tabTime123], coversb (mergedAxes [tabTime123]) t [7] = false) ∧
    allVals [tabTime123] [7] = none ∧ allWeights [tabTime123] [7] = 0 :=
  ⟨by decide,
   (merge_uncovered_cell_nan_zero [tabTime123] [7] (by decide)).1,
   (merge_uncovered_cell_nan_zero [tabTime123] [7] (by decide)).2.2⟩

/-- C2: after the two weight post-processing passes every merged weight is 0
or 1; a cell whose merged value is the missing marker NaN has weight 0 no
matter what was scattered; otherwise a nonzero scattered weight yields 1. -/
theorem merge_weights_binary (tabs : List Soltab) (j : List Nat) :
    (allWeights tabs j = 0 ∨ allWeights tabs j = 1) ∧
    (allVals tabs j = none → allWeights tabs j = 0) ∧
    (allWeightsRaw tabs j ≠ 0 → allVals tabs j ≠ none → allWeights tabs j = 1) := by
  unfold allWeights postWeight
  cases hv : allVals tabs j <;> by_cases hw : allWeightsRaw tabs j = 0 <;>
    simp [hv, hw]

/-- Witness for C2 at a concrete input: the single-table merge scatters weight
1 and value 10 into cell 0, and the post-processed weight there is 1. -/
theorem merge_weights_binary_witness :
    allWeightsRaw [tabTime123] [0] ≠ 0 ∧ allVals [tabTime123] [0] ≠ none ∧
    allWeights [tabTime123] [0] = 1 :=
  ⟨by decide, by decide,
   (merge_weights_binary [tabTime123] [0]).2.2 (by decide) (by decide)⟩

/-! ## Soltab naming: src/h5parm.py, lines 163-177 and 239-257 -/

/-- The three characters of `"%03d" % n` for `n < 1000`. -/
def pad3 (n : Nat) : String :=
  String.mk [Nat.digitChar (n / 100 % 10), Nat.digitChar (n / 10 % 10), Nat.digitChar (n % 10)]

/-- Line 254, `re.match` of the anchored pattern soltype followed by three
digit classes: for a solution type free of regex metacharacters (all that the
naming scheme produces) a name matches exactly when it is the type followed by
three decimal digits. -/
def matchesTypeNum (soltype name : String) : Bool :=
  List.isPrefixOf soltype.data name.data &&
    (name.data.drop soltype.data.length).length == 3 &&
    (name.data.drop soltype.data.length).all Char.isDigit

/-- Line 255, `int(soltab[-3:])`: the numeric value of the last three
characters (the pattern above guarantees they are digits when this runs). -/
def suffixNum (name : String) : Nat :=
  (name.data.drop (name.data.length - 3)).foldl (fun acc c => 10 * acc + (c.toNat - 48)) 0

/-- Lines 252-255: the used numeric suffixes among the existing soltab names
of the solset, for the given solution type. -/
def soltabNums (existing : List String) (soltype : String) : List Nat :=
  (existing.filter (matchesTypeNum soltype)).map suffixNum

/-- Lines 239-257 (the source misspells the name, kept here): the first
available soltype + "%03d" name, via `min` over the set difference of
`range(1000)` and the used suffixes; `none` models the ValueError `min` raises
on an empty sequence once all 1000 suffixes are taken. The last source line
parses as soltype + ("%03d" % min(...)) since the format operator binds
tighter than the concatenation. -/
def fisrtAvailSoltabName (existing : List String) (soltype : String) : Option String :=
  (((List.range 1000).filter
      (fun n => decide (n ∉ soltabNums existing soltype))).min?).map
    (fun n => soltype ++ pad3 n)

/-- Line 165, `re.match` of the anchored character-class pattern: nonempty and
only letters, digits, underscore or hyphen. -/
def isValidName (s : String) : Bool :=
  s.data.length != 0 && s.data.all (fun c => c.isAlphanum || c == '_' || c == '-')

/-- Lines 163-174 of makeSoltab, the name-resolution steps: a requested name
with unsupported characters falls back to the default, as does a requested
name already present among the existing soltabs; the default is the first
available soltype + three digit name (an omitted name goes there directly). -/
def makeSoltabName (existing : List String) (soltype : String)
    (requested : Option String) : Option String :=
  match requested with
  | none => fisrtAvailSoltabName existing soltype
  | some s =>
      if isValidName s = false then fisrtAvailSoltabName existing soltype
      else if existing.contains s then fisrtAvailSoltabName existing soltype
      else some s

/-- List.min? on Nat returns the least element of the list. -/
theorem nat_min?_eq_some_iff {a : Nat} {xs : List Nat} :
    xs.min? = some a ↔ a ∈ xs ∧ ∀ b ∈ xs, a ≤ b :=
  List.min?_eq_some_iff Nat.le_refl min_choice (fun _ _ _ => le_min_iff)


/-- If some suffix below 1000 is unused, the first-available search returns
the solution type followed by the smallest unused suffix. -/
theorem fisrtAvail_min_spec (existing : List String) (soltype : String) (n0 : Nat)
    (hlt : n0 < 1000) (hnot : n0 ∉ soltabNums existing soltype) :
    ∃ m, fisrtAvailSoltabName existing soltype = some (soltype ++ pad3 m) ∧
      m < 1000 ∧ m ∉ soltabNums existing soltype ∧
      ∀ k < m, k ∈ soltabNums existing soltype := by
  have hmem : n0 ∈ (List.range 1000).filter
      (fun n => decide (n ∉ soltabNums existing soltype)) :=
    List.mem_filter.mpr ⟨List.mem_range.mpr hlt, by simpa using hnot⟩
  cases h' : ((List.range 1000).filter
      (fun n => decide (n ∉ soltabNums existing soltype))).min? with
  | none =>
      rw [List.min?_eq_none_iff] at h'
      rw [h'] at hmem
      exact absurd hmem (List.not_mem_nil n0)
  | some m =>
      obtain ⟨hmmem, hmle⟩ := nat_min?_eq_some_iff.mp h'
      obtain ⟨hmr, hmnotin⟩ := List.mem_filter.mp hmmem
      refine ⟨m, ?_, List.mem_range.mp hmr, by simpa using hmnotin, ?_⟩
      · unfold fisrtAvailSoltabName
        rw [h']
        rfl
      · intro k hk
        by_contra hknot
        have hkavail : k ∈ (List.range 1000).filter
            (fun n => decide (n ∉ soltabNums existing soltype)) :=
          List.mem_filter.mpr
            ⟨List.mem_range.mpr (Nat.lt_trans hk (List.mem_range.mp hmr)),
             by simpa using hknot⟩
        exact absurd (hmle k hkavail) (Nat.not_le.mpr hk)

/-- Once every suffix in [0,999] is used, the first-available search fails
(the ValueError of min on an empty sequence, modelled as none). -/
theorem fisrtAvail_exhausted (existing : List String) (soltype : String)
    (h : ∀ k < 1000, k ∈ soltabNums existing soltype) :
    fisrtAvailSoltabName existing soltype = none := by
  have hnil : (List.range 1000).filter
      (fun n => decide (n ∉ soltabNums existing soltype)) = [] := by
    rw [List.filter_eq_nil_iff]
    intro a ha
    simpa using h a (List.mem_range.mp ha)
  unfold fisrtAvailSoltabName
  rw [hnil]
  rfl

/-- Auto-naming in an empty solset picks suffix 000. -/
theorem fisrtAvail_amplitude0 :
    fisrtAvailSoltabName [] "amplitude" = some "amplitude000" := by
  obtain ⟨m, heq, hlt, hnot, hmin⟩ :=
    fisrtAvail_min_spec [] "amplitude" 0 (by omega) (by simp [soltabNums])
  have hm : m = 0 := by
    by_contra hne
    have h0 := hmin 0 (Nat.pos_of_ne_zero hne)
    simp [soltabNums] at h0
  subst hm
  rw [heq]
  decide

/-- Auto-naming with amplitude000 present picks suffix 001. -/
theorem fisrtAvail_amplitude1 :
    fisrtAvailSoltabName ["amplitude000"] "amplitude" = some "amplitude001" := by
  have hnums : soltabNums ["amplitude000"] "amplitude" = [0] := by decide
  obtain ⟨m, heq, hlt, hnot, hmin⟩ :=
    fisrtAvail_min_spec ["amplitude000"] "amplitude" 1 (by omega)
      (by rw [hnums]; decide)
  rw [hnums] at hnot hmin
  have hne0 : m ≠ 0 := by simpa using hnot
  have hlt2 : m < 2 := by
    by_contra hge
    have h1 := hmin 1 (by omega)
    simp at h1
  have hm : m = 1 := by omega
  subst hm
  rw [heq]
  decide

/-- Auto-naming with amplitude000 and amplitude001 present picks suffix 002. -/
theorem fisrtAvail_amplitude2 :
    fisrtAvailSoltabName ["amplitude000", "amplitude001"] "amplitude"
      = some "amplitude002" := by
  have hnums : soltabNums ["amplitude000", "amplitude001"] "amplitude" = [0, 1] := by
    decide
  obtain ⟨m, heq, hlt, hnot, hmin⟩ :=
    fisrtAvail_min_spec ["amplitude000", "amplitude001"] "amplitude" 2 (by omega)
      (by rw [hnums]; decide)
  rw [hnums] at hnot hmin
  have hne : m ≠ 0 ∧ m ≠ 1 := by simpa using hnot
  have hlt3 : m < 3 := by
    by_contra hge
    have h2 := hmin 2 (by omega)
    simp at h2
  have hm : m = 2 := by omega
  subst hm
  rw [heq]
  decide

/-- C7: when the requested soltab name is omitted, invalid or already taken,
the synthesized name is the type followed by the smallest unused 3-digit
suffix in [0,999]; three auto-named amplitude tables in an empty solset get
the names amplitude000, amplitude001, amplitude002 in creation order; and once
every suffix is taken the operation fails (the ValueError of min on an empty
sequence, modelled as `none`). -/
theorem soltab_autonaming :
    (makeSoltabName [] "amplitude" none = some "amplitude000" ∧
     makeSoltabName ["amplitude000"] "amplitude" none = some "amplitude001" ∧
     makeSoltabName ["amplitude000", "amplitude001"] "amplitude" none = some "amplitude002") ∧
    (∀ (existing : List String) (soltype : String) (requested : Option String),
       (requested = none ∨
        ∃ s, requested = some s ∧ (isValidName s = false ∨ existing.contains s = true)) →
       makeSoltabName existing soltype requested = fisrtAvailSoltabName existing soltype) ∧
    (∀ (existing : List String) (soltype : String) (n0 : Nat),
       n0 < 1000 → n0 ∉ soltabNums existing soltype →
       ∃ m, fisrtAvailSoltabName existing soltype = some (soltype ++ pad3 m) ∧
         m < 1000 ∧ m ∉ soltabNums existing soltype ∧
         ∀ k < m, k ∈ soltabNums existing soltype) ∧
    (∀ (existing : List String) (soltype : String),
       (∀ k < 1000, k ∈ soltabNums existing soltype) →
       fisrtAvailSoltabName existing soltype = none) := by
  refine ⟨⟨fisrtAvail_amplitude0, fisrtAvail_amplitude1, fisrtAvail_amplitude2⟩,
    ?_, fisrtAvail_min_spec, fisrtAvail_exhausted⟩
  rintro existing soltype requested (rfl | ⟨s, rfl, hbad⟩)
  · rfl
  · rcases hbad with hb | hb
    · simp [makeSoltabName, hb]
    · by_cases hv : isValidName s = false
      · simp [makeSoltabName, hv]
      · have hb' : s ∈ existing := by simpa using hb
        simp [makeSoltabName, hv, hb']

/-- The digit characters produced by pad3 are decimal digits. -/
theorem digitChar_isDigit : ∀ d < 10, (Nat.digitChar d).isDigit = true := by decide

/-- Numeric value of the digit characters produced by pad3. -/
theorem digitChar_toNat : ∀ d < 10, (Nat.digitChar d).toNat - 48 = d := by decide

/-- Every pad3 rendering matches the empty-type three digit pattern. -/
theorem matchesTypeNum_pad3 (n : Nat) : matchesTypeNum "" (pad3 n) = true := by
  have h1 := digitChar_isDigit (n / 100 % 10) (Nat.mod_lt _ (by omega))
  have h2 := digitChar_isDigit (n / 10 % 10) (Nat.mod_lt _ (by omega))
  have h3 := digitChar_isDigit (n % 10) (Nat.mod_lt _ (by omega))
  simp [matchesTypeNum, pad3, List.isPrefixOf, h1, h2, h3]

/-- suffixNum inverts pad3 below 1000. -/
theorem suffixNum_pad3 (n : Nat) (hn : n < 1000) : suffixNum (pad3 n) = n := by
  have h1 := digitChar_toNat (n / 100 % 10) (Nat.mod_lt _ (by omega))
  have h2 := digitChar_toNat (n / 10 % 10) (Nat.mod_lt _ (by omega))
  have h3 := digitChar_toNat (n % 10) (Nat.mod_lt _ (by omega))
  simp only [suffixNum, pad3, String.data, List.length, List.drop, List.foldl]
  rw [h1, h2, h3]
  omega

/-- In the fully taken configuration whose existing names are exactly the 1000
three digit strings, every suffix in [0,999] is in use. -/
theorem pad3_all_taken :
    ∀ k < 1000, k ∈ soltabNums ((List.range 1000).map (fun n => pad3 n)) "" := by
  intro k hk
  unfold soltabNums
  refine List.mem_map.mpr ⟨pad3 k, ?_, suffixNum_pad3 k hk⟩
  exact List.mem_filter.mpr
    ⟨List.mem_map.mpr ⟨k, List.mem_range.mpr hk, rfl⟩, matchesTypeNum_pad3 k⟩

/-- Witness for C7: the fallback is taken for an invalid requested name, the
smallest unused suffix for a solset holding amplitude000 is produced by the
search, and the fully taken configuration fails. -/
theorem soltab_autonaming_witness :
    (makeSoltabName ["phase000"] "phase" (some "bad name")
        = fisrtAvailSoltabName ["phase000"] "phase") ∧
    (∃ m, fisrtAvailSoltabName ["amplitude000"] "amplitude"
          = some ("amplitude" ++ pad3 m) ∧
        m < 1000 ∧ m ∉ soltabNums ["amplitude000"] "amplitude" ∧
        ∀ k < m, k ∈ soltabNums ["amplitude000"] "amplitude") ∧
    fisrtAvailSoltabName ((List.range 1000).map (fun n => pad3 n)) "" = none :=
  ⟨soltab_autonaming.2.1 ["phase000"] "phase" (some "bad name")
      (Or.inr ⟨"bad name", rfl, Or.inl (by decide)⟩),
   soltab_autonaming.2.2.1 ["amplitude000"] "amplitude" 1 (by omega) (by decide),
   soltab_autonaming.2.2.2 ((List.range 1000).map (fun n => pad3 n)) "" pad3_all_taken⟩

/-! ## Selection: src/h5parm.py, solHandler lines 360-421 -/

/-- Selector values a caller can pass for one axis: a single numeric value, a
list of numeric values, a string (the documented regex form) or a min/max
dict with string keys, as in the docstring of solHandler. Python type objects
themselves are not selector values. -/
inductive PySel where
  | num (v : ℚ)
  | vals (vs : List ℚ)
  | str (s : String)
  | dict (min? : Option ℚ) (max? : Option ℚ)
  deriving DecidableEq

/-- Line 401, `if selVal is str`: an identity comparison against the type
object str, not an isinstance check — false for every actual selector value. -/
def pyIsStr (_ : PySel) : Bool := false

/-- Line 407, `elif selVal is dict`: the same identity comparison against the
type object dict — false for every actual selector value, so a dict selector
never reaches the min/max branch. -/
def pyIsDict (_ : PySel) : Bool := false

/-- The module-level names bound in h5parm.py (imports and the four classes).
The comprehensions of setSelection call a bare `getAxisValues(axis)`, a name
this table does not bind, so evaluating it raises NameError. -/
def moduleGlobals : List String :=
  ["os", "sys", "re", "np", "tables", "logging", "_version",
   "h5parm", "solHandler", "solWriter", "solFetcher"]

/-- Substring test, the semantics of the Python expression `axis in axesAttr`
on line 397, because getAxesNames returns the comma-joined AXES attribute
string rather than a list. -/
def strContains (hay needle : String) : Bool :=
  (List.range (hay.data.length + 1)).any
    (fun i => List.isPrefixOf needle.data (hay.data.drop i))

/-- The value of the handler's `self.selection` attribute: never assigned yet,
assigned the Python None object, or assigned a dict from axis name to index
list. -/
inductive SelAttr where
  | unset
  | pyNone
  | dict (d : List (String × List Nat))
  deriving DecidableEq

/-- Lines 396-420, the body of the `for axis, selVal in args.iteritems()`
loop of setSelection. `axesAttr` is the comma-joined AXES string that
getAxesNames returns. An unknown axis logs an error and returns early with
the selection as accumulated so far. The `selVal is str` and `selVal is dict`
branches are never taken (identity comparison against type objects), so every
selector value reaches the exact-match branch, whose comprehension evaluates
the unbound bare name `getAxisValues` and raises NameError. -/
def setSelectionLoop (axesAttr : String) :
    SelAttr → List (String × PySel) → Except PyErr SelAttr
  | cur, [] => .ok cur
  | cur, (axis, sv) :: _rest =>
    match strContains axesAttr axis with
    | false => .ok cur
    | true =>
      match pyIsStr sv with
      | true =>
          -- regex branch: its comprehension starts by evaluating the bare
          -- name getAxisValues, which the module does not bind
          if moduleGlobals.contains "getAxisValues" then .ok cur
          else .error (.nameError "getAxisValues")
      | false =>
        match pyIsDict sv with
        | true =>
            -- min/max branch: `min in selVal` and `max in selVal` test the
            -- builtin function objects as dict keys; with the string-keyed
            -- selector dicts modelled here both tests are false, so this
            -- branch would log the missing-bound error and return early
            .ok cur
        | false =>
            -- exact-match branch: selVal is wrapped into a one-element list
            -- and the comprehension evaluates the bare name getAxisValues
            if moduleGlobals.contains "getAxisValues" then .ok cur
            else .error (.nameError "getAxisValues")

/-- Lines 387-420, `setSelection(self, append=False, **args)`: when `append`
is falsy the current selection is reset to the empty dict, then the loop runs
over the keyword arguments; the function body has no return statement on the
normal path, so the call returns the Python None object. The result pairs the
final `self.selection` attribute with that returned value. -/
def setSelectionCall (cur : SelAttr) (appendTruthy : Bool) (axesAttr : String)
    (kwargs : List (String × PySel)) : Except PyErr (SelAttr × SelAttr) :=
  let cur0 := match appendTruthy with
    | false => SelAttr.dict []
    | true => cur
  match setSelectionLoop axesAttr cur0 kwargs with
  | .error e => .error e
  | .ok cur1 => .ok (cur1, SelAttr.pyNone)

/-- Lines 371-384, `solHandler.__init__`: the constructor runs
`self.selection = self.setSelection(args)`. The selector dict `args` is
passed positionally, so it lands in the `append` parameter (truthy exactly
when nonempty) and the keyword-argument dict of the call is empty; the value
stored into `self.selection` afterwards is the call's return value. -/
def solHandlerInit (axesAttr : String) (args : List (String × PySel)) :
    Except PyErr SelAttr :=
  match setSelectionCall SelAttr.unset (!args.isEmpty) axesAttr [] with
  | .error e => .error e
  | .ok (_, ret) => .ok ret

/-- C6 fails on the code: selecting on the existing axis time of a table with
AXES attribute "time,freq" using a range dict raises NameError instead of
selecting the in-range indices — the dict is not recognized (`selVal is dict`
compares against the type object), so it reaches the exact-match branch whose
comprehension evaluates the unbound name getAxisValues; a dict with neither
bound raises the same NameError rather than the documented missing-bound
error. -/
theorem setSelection_range_dict_raises :
    setSelectionCall (SelAttr.dict []) false "time,freq"
        [("time", PySel.dict (some 2) none)]
      = .error (.nameError "getAxisValues") ∧
    setSelectionCall (SelAttr.dict []) false "time,freq"
        [("time", PySel.dict none none)]
      = .error (.nameError "getAxisValues") := by
  decide

/-- C9 as stated is refuted at a concrete input: a handler constructed with a
selector argument does not end up with an empty selection dict. -/
theorem solHandlerInit_not_empty_dict :
    solHandlerInit "time,freq" [("time", PySel.num 2)]
      ≠ Except.ok (SelAttr.dict []) := by
  decide

/-- C9 amended: for every table and every selector-argument dict the
constructor never applies the selectors — the dict lands in the `append`
parameter, the loop runs over an empty keyword dict, and `self.selection`
ends up holding the Python None object returned by setSelection, not an
empty selection dict. -/
theorem solHandlerInit_selection_none (axesAttr : String)
    (args : List (String × PySel)) :
    solHandlerInit axesAttr args = Except.ok SelAttr.pyNone := by
  unfold solHandlerInit setSelectionCall
  cases args <;> rfl

/-! ## solFetcher materialization: src/h5parm.py, lines 555-643 -/

/-- The attribute names bound on the solFetcher class or inherited from
solHandler (the methods defined with def in either class body). Instance
attribute lookup falls back to the __getattr__ hook only for names outside
this list. -/
def solFetcherClassAttrs : List String :=
  ["__init__", "__getattr__", "getValuesGrid", "getIterValuesGrid",
   "getAntVal", "getSouVal", "setSelection", "getType", "getAxesNames",
   "getAxis", "getAxisValues", "addHistory", "getHistory"]

/-- Python attribute lookup on a solFetcher instance, with the interpreter
call depth as fuel: a name not bound on the class goes to __getattr__ (lines
561-569), whose body first evaluates `self.getAxes()` — a name the class does
not bind either — so the lookup recurses until the stack is exhausted and
RecursionError is raised. -/
def solFetcherGetattr : Nat → String → Except PyErr Unit
  | 0, _ => .error .recursionError
  | fuel + 1, name =>
    match solFetcherClassAttrs.contains name with
    | true => .ok ()
    | false => solFetcherGetattr fuel "getAxes"

/-- Looking up getAxes exhausts the interpreter stack at every call depth. -/
theorem getAxes_lookup_diverges :
    ∀ fuel, solFetcherGetattr fuel "getAxes" = .error .recursionError := by
  intro fuel
  induction fuel with
  | zero => rfl
  | succ n ih =>
      show (match solFetcherClassAttrs.contains "getAxes" with
            | true => Except.ok ()
            | false => solFetcherGetattr n "getAxes")
          = Except.error PyErr.recursionError
      rw [show solFetcherClassAttrs.contains "getAxes" = false from by decide]
      exact ih

/-- Lines 572-596, getValuesGrid: after choosing the data array the body runs
`for axis in self.getAxes():`, which resolves the attribute getAxes through
the lookup above; were that ever to resolve, the loop body would still
evaluate the unbound bare name `axes` (line 585). -/
def getValuesGrid (fuel : Nat) : Except PyErr Unit :=
  match solFetcherGetattr fuel "getAxes" with
  | .error e => .error e
  | .ok _ => .error (.nameError "axes")

/-- Lines 598-643, getIterValuesGrid: the body first calls
`self.getValuesGrid(retAxisVals=True, weight=weight)` on line 614; were that
call ever to return, line 625 would still evaluate the unbound bare name
`axesNames`. -/
def getIterValuesGrid (fuel : Nat) : Except PyErr Unit :=
  match getValuesGrid fuel with
  | .error e => .error e
  | .ok _ => .error (.nameError "axesNames")

/-- C4 fails on the code: getValuesGrid raises at every interpreter depth —
the select-all round trip never returns the stored array (the getAxes lookup
recurses through __getattr__ until RecursionError). -/
theorem getValuesGrid_always_raises (fuel : Nat) :
    getValuesGrid fuel = .error .recursionError := by
  unfold getValuesGrid
  rw [getAxes_lookup_diverges fuel]

/-- C5 fails on the code: getIterValuesGrid raises at every interpreter depth
— its first step, the inner getValuesGrid call, never returns, so no slice is
ever yielded and no reconstruction of the dense grid can happen. -/
theorem getIterValuesGrid_always_raises (fuel : Nat) :
    getIterValuesGrid fuel = .error .recursionError := by
  unfold getIterValuesGrid getValuesGrid
  rw [getAxes_lookup_diverges fuel]

/-! ## History: src/h5parm.py, lines 468-509 -/

/-- The two attribute stores the history code touches: the user attributes of
the soltab group node (`self.t.attrs`) and those of its val array
(`self.t.val.attrs`), each a mapping from attribute name to string value. -/
structure TabAttrs where
  groupAttrs : List (String × String)
  valAttrs : List (String × String)
  deriving DecidableEq

/-- The numeric value of a nonempty all-digit character list; `none`
otherwise, modelling the int() calls that raise on non-numeric text (the
signed and padded forms int() also accepts never arise from the HISTORY
naming scheme). -/
def toNatDigits? (cs : List Char) : Option Nat :=
  if cs ≠ [] ∧ cs.all Char.isDigit then
    some (cs.foldl (fun acc c => 10 * acc + (c.toNat - 48)) 0)
  else none

/-- Lines 481-487 of addHistory: the numeric suffixes of the names of the
form HISTORY followed by three characters among a list of attribute names; a
non-numeric tail makes int() raise and the bare except skips the name. -/
def historyNums (names : List String) : List Nat :=
  names.filterMap (fun attr =>
    if attr.data.take (attr.data.length - 3) = "HISTORY".data then
      toNatDigits? (attr.data.drop (attr.data.length - 3))
    else none)

/-- Assignment into a pytables attribute set: replace the value of an
existing name or append a new pair. -/
def setAttr (attrs : List (String × String)) (k v : String) : List (String × String) :=
  match attrs.any (fun p => decide (p.1 = k)) with
  | true => attrs.map (fun p => if p.1 = k then (k, v) else p)
  | false => attrs ++ [(k, v)]

/-- Lines 468-490, addHistory: the used HISTORY slots are scanned on
`self.t.attrs._f_list("user")` — the attributes of the GROUP node — while the
new entry is stored into `self.t.val.attrs[historyAttr]` — the attributes of
the val ARRAY. The slot is the min of the set difference of range(1000) and
the scanned suffixes; `valueError` models the exception min raises on an
empty sequence. `now` is the formatted current time. -/
def addHistory (st : TabAttrs) (now entry : String) : Except PyErr TabAttrs :=
  match (((List.range 1000).filter
      (fun n => decide (n ∉ historyNums (st.groupAttrs.map Prod.fst)))).min?) with
  | none => .error .valueError
  | some n =>
      .ok { st with
            valAttrs := setAttr st.valAttrs ("HISTORY" ++ pad3 n) (now ++ ": " ++ entry) }

/-- When suffix 0 is not among the scanned group-attribute suffixes, the
minimum of the available range is 0. -/
theorem min_avail_zero (nums : List Nat) (h0 : 0 ∉ nums) :
    ((List.range 1000).filter (fun n => decide (n ∉ nums))).min? = some 0 := by
  apply nat_min?_eq_some_iff.mpr
  constructor
  · exact List.mem_filter.mpr ⟨List.mem_range.mpr (by omega), by simpa using h0⟩
  · intro b _
    exact Nat.zero_le b

/-- Whenever no HISTORY suffix is scanned from the group attributes — in
particular always, since addHistory never writes the group attributes — the
entry is stored into slot HISTORY000 of the val-array attributes. -/
theorem addHistory_slot (st : TabAttrs) (now entry : String)
    (h0 : 0 ∉ historyNums (st.groupAttrs.map Prod.fst)) :
    addHistory st now entry
      = .ok { st with
              valAttrs := setAttr st.valAttrs "HISTORY000" (now ++ ": " ++ entry) } := by
  unfold addHistory
  rw [min_avail_zero _ h0]
  show Except.ok _ = _
  rw [show ("HISTORY" ++ pad3 0) = "HISTORY000" from by decide]

/-- The attribute state of a freshly created soltab: no user attributes on
the group node or the val array. -/
def histState0 : TabAttrs := { groupAttrs := [], valAttrs := [] }

/-- The attribute state after the first addHistory call. -/
def histState1 : TabAttrs :=
  { groupAttrs := [], valAttrs := [("HISTORY000", "2026-10-12 00:00:00: first")] }

/-- The attribute state after the second addHistory call: the first entry is
gone. -/
def histState2 : TabAttrs :=
  { groupAttrs := [], valAttrs := [("HISTORY000", "2026-10-12 00:00:01: second")] }

/-- C8 fails on the code: two successive addHistory calls on a fresh table
both scan the group attributes (never written by addHistory), both pick slot
HISTORY000, and the second call overwrites the first entry in the val-array
attributes instead of appending — history is not append-only. -/
theorem addHistory_overwrites_first_entry :
    addHistory histState0 "2026-10-12 00:00:00" "first" = .ok histState1 ∧
    addHistory histState1 "2026-10-12 00:00:01" "second" = .ok histState2 := by
  constructor
  · rw [addHistory_slot histState0 "2026-10-12 00:00:00" "first" (by decide)]
    decide
  · rw [addHistory_slot histState1 "2026-10-12 00:00:01" "second" (by decide)]
    decide

/-! ## makeSoltab persistence: src/h5parm.py, lines 135-203 -/

/-- The objects created so far in the underlying store: group paths and array
paths. -/
structure H5Store where
  groups : List String
  arrays : List String
  deriving DecidableEq

/-- Lines 176-197 of makeSoltab after name resolution: the soltab group is
created first (line 177), the axes/vals length assertion runs (line 180),
then one carray per axis is created (lines 182-186), and only then do the two
shape assertions (lines 189-190) run; the val and weight carrays are created
last (lines 196-197). The value and weight arguments enter this fragment only
through their shapes, which is all it reads of them before the final
creations. -/
def makeSoltabPersist (store : H5Store) (solsetName soltabName : String)
    (axesNames : List String) (axesVals : List (List ℚ))
    (valsShape weightsShape : List Nat) : H5Store × Except PyErr Unit :=
  let base := "/" ++ solsetName ++ "/" ++ soltabName
  let store1 : H5Store := { store with groups := store.groups ++ [base] }
  if axesNames.length ≠ axesVals.length then (store1, .error .assertionError) else
  let store2 : H5Store :=
    { store1 with arrays := store1.arrays ++ axesNames.map (fun a => base ++ "/" ++ a) }
  let dim := axesVals.map List.length
  if dim ≠ valsShape then (store2, .error .assertionError) else
  if dim ≠ weightsShape then (store2, .error .assertionError) else
  ({ store2 with arrays := store2.arrays ++ [base ++ "/val", base ++ "/weight"] }, .ok ())

/-- C10: makeSoltab is not atomic on shape mismatch — when the vals or
weights shape disagrees with the per-axis lengths, the failing assertion runs
only after the soltab group and every axis array have been created, so the
store keeps the partially created table (group plus axis arrays, no
val/weight arrays) and the call fails. -/
theorem makeSoltab_partial_on_shape_mismatch (store : H5Store)
    (solsetName soltabName : String) (axesNames : List String)
    (axesVals : List (List ℚ)) (valsShape weightsShape : List Nat)
    (hlen : axesNames.length = axesVals.length)
    (hmis : axesVals.map List.length ≠ valsShape ∨
            axesVals.map List.length ≠ weightsShape) :
    makeSoltabPersist store solsetName soltabName axesNames axesVals valsShape weightsShape
      = ({ groups := store.groups ++ ["/" ++ solsetName ++ "/" ++ soltabName],
           arrays := store.arrays ++ axesNames.map
             (fun a => "/" ++ solsetName ++ "/" ++ soltabName ++ "/" ++ a) },
         .error .assertionError) := by
  unfold makeSoltabPersist
  rcases hmis with h | h
  · simp [hlen, h]
  · by_cases hv : axesVals.map List.length = valsShape
    · have h2 : valsShape ≠ weightsShape := hv ▸ h
      simp [hlen, hv, h2]
    · simp [hlen, hv]

/-- Witness for C10: a one-axis table with two coordinates and arrays of
declared shape 3 fails its shape assertion, leaving the group and axis array
behind. -/
theorem makeSoltab_partial_witness :
    ["time"].length = [[(1 : ℚ), 2]].length ∧
    ([[(1 : ℚ), 2]].map List.length ≠ [3] ∨
     [[(1 : ℚ), 2]].map List.length ≠ [3]) ∧
    makeSoltabPersist { groups := [], arrays := [] } "sol000" "amplitude000"
        ["time"] [[(1 : ℚ), 2]] [3] [3]
      = ({ groups := ["/sol000/amplitude000"],
           arrays := ["/sol000/amplitude000/time"] }, .error .assertionError) :=
  ⟨rfl, Or.inl (by decide),
   makeSoltab_partial_on_shape_mismatch { groups := [], arrays := [] }
     "sol000" "amplitude000" ["time"] [[(1 : ℚ), 2]] [3] [3] rfl (Or.inl (by decide))⟩
